import Mathlib

/-!
Shallow embedding of `src/ragnarok/src/ragnarok/generate/cohere.py`
(the `Cohere` LLM adapter of the ragnarok RAG pipeline).

Strings are modelled as `List Char` so that Python's whitespace
`str.split()` / `" ".join` can be reasoned about directly.  External
pluggable text transforms (ftfy's `fix_text`, the inherited
`_replace_number`) and the post-processor are parameters; the remote
`client.chat` call is modelled by an oracle script of attempt outcomes.
-/

namespace Ragnarok

/-- Python `str.split()` (split on whitespace runs, dropping empty
pieces), accumulator form; `acc` holds the current word reversed. -/
def pySplitAux : List Char → List Char → List (List Char)
  | [], [] => []
  | [], a :: as => [(a :: as).reverse]
  | c :: cs, acc =>
    if c.isWhitespace then
      match acc with
      | [] => pySplitAux cs []
      | a :: as => (a :: as).reverse :: pySplitAux cs []
    else
      pySplitAux cs (c :: acc)

/-- Python `s.split()` with no separator argument. -/
def pySplit (l : List Char) : List (List Char) :=
  pySplitAux l []

/-- Python `" ".join(ws)`. -/
def unwords : List (List Char) → List Char
  | [] => []
  | [w] => w
  | w :: v :: ws => w ++ ' ' :: unwords (v :: ws)

/-- Python slice `l[:n]` for an `int` bound `n` (negative `n` keeps all
but the last `|n|` elements). -/
def pyTakeInt (n : Int) (l : List α) : List α :=
  if 0 ≤ n then l.take n.toNat else l.take (l.length - (-n).toNat)

/-- Python `str.strip()`: drop leading and trailing whitespace. -/
def pyStrip (l : List Char) : List Char :=
  ((l.dropWhile Char.isWhitespace).reverse.dropWhile Char.isWhitespace).reverse

/-- Python `s.replace("\n", " ")`. -/
def replaceNl (l : List Char) : List Char :=
  l.map (fun c => if c = '\n' then ' ' else c)

/-- Python `needle in haystack` substring test. -/
def containsFrom (needle : List Char) : List Char → Bool
  | [] => needle.isEmpty
  | c :: cs => needle.isPrefixOf (c :: cs) || containsFrom needle cs

/-- The error-message marker `"blocked output"` tested by `run_llm`. -/
def blockedMarker : List Char := "blocked output".toList

/-- A document record: a mapping from field names to string values
(`doc` in `convert_doc_to_prompt_content`). -/
def Doc : Type := List (String × List Char)

/-- The cleaned `{snippet, title?}` record built per candidate. -/
structure PromptContent where
  snippet : List Char
  title : Option (List Char)
  deriving DecidableEq, Repr

/-- The per-field cleaning pipeline of `convert_doc_to_prompt_content`:
`strip` → `fix_text` → newline→space → first `max_length` words
rejoined → `_replace_number`.  `fix` and `rn` are the two pluggable
transforms. -/
def cleanField (fix rn : List Char → List Char) (maxLength : Int)
    (s : List Char) : List Char :=
  rn (unwords (pyTakeInt maxLength (pySplit (replaceNl (fix (pyStrip s))))))

/-- The text-field selection of `convert_doc_to_prompt_content`:
`text` > `segment` > `contents` > `passage`, first present key wins;
`none` models the `KeyError` raised by `doc["passage"]`. -/
def selectContent (doc : Doc) : Option (List Char) :=
  match doc.lookup "text" with
  | some t => some t
  | none =>
    match doc.lookup "segment" with
    | some t => some t
    | none =>
      match doc.lookup "contents" with
      | some t => some t
      | none => doc.lookup "passage"

/-- Source method `Cohere.convert_doc_to_prompt_content`; `none`
models the `KeyError` when none of the four text fields is present.
Pure over its inputs: the document mapping is only read, never
modified. -/
def convert_doc_to_prompt_content (fix rn : List Char → List Char)
    (doc : Doc) (maxLength : Int) : Option PromptContent :=
  match selectContent doc with
  | none => none
  | some c =>
    some { snippet := cleanField fix rn maxLength c
           title := (doc.lookup "title").map (cleanField fix rn maxLength) }

/-- Field `request.query` (only its `.text` is used). -/
structure Query where
  text : List Char

/-- One retrieved candidate (only its `.doc` is used). -/
structure Candidate where
  doc : Doc

/-- Request record consumed by `create_prompt`. -/
structure Request where
  query : Query
  candidates : List Candidate

/-- One element of the prompt list `[{"query": ..., "context": ...}]`. -/
structure Message where
  query : List Char
  context : List PromptContent
  deriving DecidableEq

/-- Source method `Cohere.get_num_tokens`: token counting is
unimplemented for this provider and always returns the sentinel
`-1`. -/
def get_num_tokens (_prompt : List Message) : Int := -1

/-- Source method `Cohere.cost_per_1k_token`: likewise the sentinel
`-1`. -/
def cost_per_1k_token (_input_token : Bool) : Int := -1

/-- Modelled from the spec: the inherited `LLM.max_tokens` accessor is
not under `src/`; per the spec the budget check compares against the
configured context window size, so `max_tokens` returns
`context_size`. -/
def max_tokens (context_size : Int) : Int := context_size

/-- Modelled from the spec: the inherited `LLM.num_output_tokens`
accessor is not under `src/`; per the spec the reserved output budget
is the configured maximum output token count, so `num_output_tokens`
returns `max_output_tokens`. -/
def num_output_tokens (max_output_tokens : Int) : Int := max_output_tokens

/-- Result of `create_prompt`: either the propagated `KeyError` from a
malformed document, or the returned `(messages, num_tokens)` pair. -/
inductive CPResult
  | keyError
  | ok (messages : List Message) (numTokens : Int)
  deriving DecidableEq

/-- The `for cand in request.candidates[:topk]` loop body of
`create_prompt`: normalizes each candidate in order, propagating the
`KeyError` (`none`) of a malformed document. -/
def buildContext (fix rn : List Char → List Char) (maxLength : Int) :
    List Candidate → Option (List PromptContent)
  | [] => some []
  | cand :: cs =>
    match convert_doc_to_prompt_content fix rn cand.doc maxLength with
    | none => none
    | some pc =>
      match buildContext fix rn maxLength cs with
      | none => none
      | some rest => some (pc :: rest)

/-- The body of `Cohere.create_prompt`'s `while True` loop, with
explicit fuel: `none` means the loop has not returned within `fuel`
iterations.  Each iteration rebuilds the context from the first `topk`
candidates at the current `maxLength`, checks the (sentinel) token
estimate against `max_tokens() - num_output_tokens()`, and otherwise
shrinks `maxLength` by `max 1 (overflow // (topk * 4))`. -/
def create_promptF (fix rn : List Char → List Char)
    (context_size max_output_tokens : Int) (req : Request) (topk : Nat) :
    Nat → Int → Option CPResult
  | 0, _ => none
  | fuel + 1, maxLength =>
    match buildContext fix rn maxLength (req.candidates.take topk) with
    | none => some .keyError
    | some context =>
      let messages : List Message := [{ query := req.query.text, context := context }]
      let numTokens := get_num_tokens messages
      if numTokens ≤ max_tokens context_size - num_output_tokens max_output_tokens then
        some (.ok messages (get_num_tokens messages))
      else
        create_promptF fix rn context_size max_output_tokens req topk fuel
          (maxLength -
            max 1 ((numTokens - max_tokens context_size +
              num_output_tokens max_output_tokens).fdiv (topk * 4)))

/-- Source method `Cohere.create_prompt`: starts the loop at
`max_length = (context_size - 200) // topk`. -/
def create_prompt (fix rn : List Char → List Char)
    (context_size max_output_tokens : Int) (req : Request) (topk : Nat)
    (fuel : Nat) : Option CPResult :=
  create_promptF fix rn context_size max_output_tokens req topk fuel
    ((context_size - 200).fdiv topk)

/-- The context `create_prompt` would assemble in a single iteration at
truncation budget `maxLength` (used to state what the loop returns). -/
def firstContext (fix rn : List Char → List Char) (req : Request)
    (topk : Nat) (maxLength : Int) : Option (List PromptContent) :=
  buildContext fix rn maxLength (req.candidates.take topk)

/-- One answer segment as produced by the post-processor (only its
`.text` matters to `run_llm`'s accounting). -/
structure Answer where
  text : List Char
  deriving DecidableEq

/-- The `response` field of a `RAGExecInfo`: either the literal blocked
sentinel string or the post-processor's normalized response object. -/
inductive RespField (ρ : Type)
  | str (s : String)
  | obj (r : ρ)
  deriving DecidableEq

/-- Execution record `RAGExecInfo` as populated by `Cohere.run_llm`. -/
structure RAGExecInfo (ρ : Type) where
  prompt : Message
  response : RespField ρ
  input_token_count : Nat
  output_token_count : Nat
  candidates : List PromptContent
  deriving DecidableEq

/-- Whitespace-word count (`len(s.split())`). -/
def wordCount (l : List Char) : Nat := (pySplit l).length

/-- Python expression `len(query.split()) + sum(len(doc["snippet"].split())
for doc in docs)` from `run_llm`. -/
def inputTokenCount (query : List Char) (docs : List PromptContent) : Nat :=
  wordCount query + (docs.map (fun d => wordCount d.snippet)).sum

/-- One outcome of an attempted `self._client.chat(...)` call: a raw
response of type `α`, or a raised exception with the given message. -/
inductive ChatOutcome (α : Type)
  | success (resp : α)
  | failure (msg : List Char)

/-- The retry loop of `Cohere.run_llm`, driven by the oracle `script`
of successive chat-call outcomes.  `sleeps` records the durations of
`time.sleep(60)` calls made so far; `none` means the script was
exhausted with the loop still running. -/
def run_llm_loop (postProc : α → List Answer × ρ) (m : Message) :
    List (ChatOutcome α) → List Nat →
    Option (List Answer × RAGExecInfo ρ × List Nat)
  | [], _ => none
  | o :: rest, sleeps =>
    match o with
    | .success r =>
      let parsed := postProc r
      some (parsed.1,
        { prompt := m
          response := .obj parsed.2
          input_token_count := inputTokenCount m.query m.context
          output_token_count := (parsed.1.map (fun a => a.text.length)).sum
          candidates := m.context },
        sleeps)
    | .failure e =>
      if containsFrom blockedMarker e then
        some ([],
          { prompt := m
            response := .str "Blocked output"
            input_token_count := inputTokenCount m.query m.context
            output_token_count := 0
            candidates := m.context },
          sleeps)
      else
        run_llm_loop postProc m rest (sleeps ++ [60])

/-- Supported model identifiers (the allow-list in `Cohere.__init__`). -/
def supportedModels : List String :=
  ["command-r-plus-08-2024", "command-r-plus", "command-r"]

/-- Construction-time failures of `Cohere.__init__`. -/
inductive InitError
  | unsupportedModel
  | badCredential
  deriving DecidableEq

/-- The constructed adapter state (immutable configuration). -/
structure CohereState where
  model : String
  context_size : Int
  max_output_tokens : Int
  key : String
  deriving DecidableEq

/-- Source constructor `Cohere.__init__`: rejects a model outside the allow-list before
any client is created.  Modelled from the spec: credential acquisition
(`get_cohere_api_key` / `cohere.Client`) is not under `src/`; per the
spec an absent or invalid API key fails fast at construction time with
a configuration error. -/
def Cohere.init (model : String) (context_size max_output_tokens : Int)
    (key : Option String) (validKey : String → Bool) :
    Except InitError CohereState :=
  if model ∈ supportedModels then
    match key with
    | none => .error .badCredential
    | some k =>
      if validKey k then
        .ok { model := model, context_size := context_size,
              max_output_tokens := max_output_tokens, key := k }
      else
        .error .badCredential
  else
    .error .unsupportedModel

/-- Source method `Cohere.run_llm`: reads `prompt[0]`, runs the retry loop against
the oracle `script`, and on success hands the raw response to the
post-processor.  The adapter state `st` is threaded as in the source
(`self`); the chat call's outcome is abstracted by the script.  `none`
models an empty prompt list (`IndexError`) or an exhausted script. -/
def run_llm (_st : CohereState) (postProc : α → List Answer × ρ)
    (prompt : List Message) (script : List (ChatOutcome α)) :
    Option (List Answer × RAGExecInfo ρ × List Nat) :=
  match prompt with
  | [] => none
  | m :: _ => run_llm_loop postProc m script []

/-! Lemmas about the whitespace split/join pair. -/

/-- Unfolding lemma for `pySplitAux` on a cons cell. -/
lemma pySplitAux_cons (c : Char) (cs acc : List Char) :
    pySplitAux (c :: cs) acc =
      if c.isWhitespace then
        (match acc with
         | [] => pySplitAux cs []
         | a :: as => (a :: as).reverse :: pySplitAux cs [])
      else pySplitAux cs (c :: acc) := rfl

/-- Every piece produced by the Python-style whitespace split is a
nonempty word containing no whitespace. -/
lemma pySplitAux_mem : ∀ (l acc : List Char),
    (∀ c ∈ acc, c.isWhitespace = false) →
    ∀ w ∈ pySplitAux l acc, w ≠ [] ∧ ∀ c ∈ w, c.isWhitespace = false := by
  intro l
  induction l with
  | nil =>
    intro acc hacc w hw
    cases acc with
    | nil => simp [pySplitAux] at hw
    | cons a as =>
      simp only [pySplitAux, List.mem_singleton] at hw
      subst hw
      refine ⟨by simp, ?_⟩
      intro c hc
      exact hacc c (List.mem_reverse.mp hc)
  | cons c cs ih =>
    intro acc hacc w hw
    rw [pySplitAux_cons] at hw
    by_cases hc : c.isWhitespace
    · rw [if_pos hc] at hw
      cases acc with
      | nil => exact ih [] (by simp) w hw
      | cons a as =>
        simp only [List.mem_cons] at hw
        rcases hw with hw | hw
        · subst hw
          refine ⟨by simp, ?_⟩
          intro d hd
          exact hacc d (List.mem_reverse.mp hd)
        · exact ih [] (by simp) w hw
    · rw [if_neg hc] at hw
      refine ih (c :: acc) ?_ w hw
      intro d hd
      rcases List.mem_cons.mp hd with hd | hd
      · subst hd; exact eq_false_of_ne_true hc
      · exact hacc d hd

/-- Members of `pySplit l` are nonempty whitespace-free words. -/
lemma pySplit_mem (l : List Char) :
    ∀ w ∈ pySplit l, w ≠ [] ∧ ∀ c ∈ w, c.isWhitespace = false :=
  pySplitAux_mem l [] (by simp)

/-- Scanning past a whitespace-free word accumulates it reversed. -/
lemma pySplitAux_word_append (w : List Char)
    (hw : ∀ c ∈ w, c.isWhitespace = false) :
    ∀ (rest acc : List Char),
      pySplitAux (w ++ rest) acc = pySplitAux rest (w.reverse ++ acc) := by
  induction w with
  | nil => intro rest acc; simp
  | cons c w' ih =>
    intro rest acc
    have hc : c.isWhitespace = false := hw c (by simp)
    rw [List.cons_append, pySplitAux_cons, if_neg (by simp [hc])]
    rw [ih (fun d hd => hw d (List.mem_cons_of_mem c hd)) rest (c :: acc)]
    simp [List.append_assoc]

/-- Unfolding lemma for `unwords` on two or more words. -/
lemma unwords_cons_cons (w v : List Char) (ws : List (List Char)) :
    unwords (w :: v :: ws) = w ++ ' ' :: unwords (v :: ws) := rfl

/-- Splitting a single-space join of nonempty whitespace-free words
recovers the words. -/
lemma pySplit_unwords : ∀ (ws : List (List Char)),
    (∀ w ∈ ws, w ≠ [] ∧ ∀ c ∈ w, c.isWhitespace = false) →
    pySplit (unwords ws) = ws := by
  intro ws
  induction ws with
  | nil => intro _; rfl
  | cons w tail ih =>
    intro h
    obtain ⟨hw0, hwchars⟩ := h w (by simp)
    have hwrev : w.reverse ≠ [] := by simp [hw0]
    obtain ⟨a, as, hr⟩ := List.exists_cons_of_ne_nil hwrev
    cases tail with
    | nil =>
      show pySplitAux (unwords [w]) [] = [w]
      have : unwords [w] = w ++ [] := by simp [unwords]
      rw [this, pySplitAux_word_append w hwchars [] []]
      rw [List.append_nil, hr]
      show [(a :: as).reverse] = [w]
      rw [← hr, List.reverse_reverse]
    | cons v vs =>
      show pySplitAux (unwords (w :: v :: vs)) [] = w :: v :: vs
      rw [unwords_cons_cons, pySplitAux_word_append w hwchars _ []]
      rw [List.append_nil, pySplitAux_cons, if_pos (by decide), hr]
      show (a :: as).reverse :: pySplitAux (unwords (v :: vs)) [] = w :: v :: vs
      rw [← hr, List.reverse_reverse]
      have ih2 := ih (fun u hu => h u (List.mem_cons_of_mem w hu))
      rw [show pySplitAux (unwords (v :: vs)) [] = pySplit (unwords (v :: vs)) from rfl, ih2]

/-- Re-splitting the join of a prefix of a split is that prefix. -/
lemma pySplit_unwords_take (l : List Char) (k : Nat) :
    pySplit (unwords ((pySplit l).take k)) = (pySplit l).take k := by
  apply pySplit_unwords
  intro w hw
  exact pySplit_mem l w (List.take_subset _ _ hw)

/-! Lemmas about the prompt-builder loop. -/

/-- A successfully built context has one entry per candidate. -/
lemma buildContext_length (fix rn : List Char → List Char) (ml : Int) :
    ∀ (cands : List Candidate) (ctx : List PromptContent),
      buildContext fix rn ml cands = some ctx → ctx.length = cands.length := by
  intro cands
  induction cands with
  | nil =>
    intro ctx h
    simp only [buildContext, Option.some.injEq] at h
    subst h; rfl
  | cons cand cs ih =>
    intro ctx h
    simp only [buildContext] at h
    cases hconv : convert_doc_to_prompt_content fix rn cand.doc ml with
    | none => rw [hconv] at h; exact absurd h (by simp)
    | some pc =>
      rw [hconv] at h
      cases hrec : buildContext fix rn ml cs with
      | none => rw [hrec] at h; exact absurd h (by simp)
      | some rest =>
        rw [hrec] at h
        simp only [Option.some.injEq] at h
        subst h
        simp [ih rest hrec]

/-- Unfolding lemma for one iteration of the `create_prompt` loop. -/
lemma create_promptF_succ (fix rn : List Char → List Char)
    (cs mot : Int) (req : Request) (topk fuel : Nat) (ml : Int) :
    create_promptF fix rn cs mot req topk (fuel + 1) ml =
      match buildContext fix rn ml (req.candidates.take topk) with
      | none => some .keyError
      | some context =>
        if (-1 : Int) ≤ cs - mot then
          some (.ok [{ query := req.query.text, context := context }] (-1))
        else
          create_promptF fix rn cs mot req topk fuel
            (ml - max 1 ((-1 - cs + mot).fdiv (topk * 4))) := rfl

/-- The retry loop sleeps 60 units per non-blocking failure and
returns the post-processor's parse of the first success. -/
lemma run_llm_loop_retries {α ρ : Type} (pp : α → List Answer × ρ)
    (m : Message) (e : List Char)
    (he : containsFrom blockedMarker e = false)
    (r : α) (rest : List (ChatOutcome α)) :
    ∀ (k : Nat) (sleeps : List Nat),
      run_llm_loop pp m (List.replicate k (.failure e) ++ .success r :: rest) sleeps =
        some ((pp r).1,
          { prompt := m
            response := .obj (pp r).2
            input_token_count := inputTokenCount m.query m.context
            output_token_count := ((pp r).1.map (fun a => a.text.length)).sum
            candidates := m.context },
          sleeps ++ List.replicate k 60) := by
  intro k
  induction k with
  | zero => intro sleeps; simp [run_llm_loop]
  | succ j ih =>
    intro sleeps
    rw [List.replicate_succ, List.cons_append]
    simp only [run_llm_loop, he, Bool.false_eq_true, if_false]
    rw [ih (sleeps ++ [60])]
    simp [List.replicate_succ]

/-- C1: when the remote chat call raises an exception whose message
contains the substring "blocked output", `run_llm` returns immediately
— no sleep, no further attempt (the result does not depend on `rest`)
— a pair of an empty answer list and an execution record whose
response is exactly "Blocked output", whose output_token_count is 0,
and whose input_token_count is the whitespace-word count of the query
plus the word counts of all candidate snippets. -/
theorem blocked_output_short_circuit {α ρ : Type} (st : CohereState)
    (pp : α → List Answer × ρ) (m : Message) (ms : List Message)
    (e : List Char) (rest : List (ChatOutcome α))
    (he : containsFrom blockedMarker e = true) :
    run_llm st pp (m :: ms) (.failure e :: rest) =
      some ([],
        { prompt := m
          response := .str "Blocked output"
          input_token_count := inputTokenCount m.query m.context
          output_token_count := 0
          candidates := m.context },
        []) := by
  simp [run_llm, run_llm_loop, he]

/-- Concrete instantiation of the blocked-output short-circuit. -/
theorem blocked_output_short_circuit_witness :
    containsFrom blockedMarker "api error: blocked output detected".toList = true ∧
    run_llm (α := Unit) (ρ := Unit)
        { model := "command-r", context_size := 8000,
          max_output_tokens := 1500, key := "k" }
        (fun _ => ([], ()))
        [{ query := "what is up".toList, context := [⟨"a b c".toList, none⟩] }]
        [.failure "api error: blocked output detected".toList] =
      some ([],
        { prompt := { query := "what is up".toList,
                      context := [⟨"a b c".toList, none⟩] }
          response := .str "Blocked output"
          input_token_count :=
            inputTokenCount "what is up".toList [⟨"a b c".toList, none⟩]
          output_token_count := 0
          candidates := [⟨"a b c".toList, none⟩] },
        []) :=
  ⟨by decide,
   blocked_output_short_circuit _ _ _ _ _ _ (by decide)⟩

/-- C4: when the remote call raises non-blocking errors on the first
`k` attempts and succeeds on attempt `k + 1`, `run_llm` sleeps exactly
`k` times, each a fixed 60-unit sleep, and returns the
post-processor's parsed result of the successful response; no raw
provider exception reaches the caller on this path. -/
theorem retry_then_succeed {α ρ : Type} (st : CohereState)
    (pp : α → List Answer × ρ) (m : Message) (ms : List Message)
    (k : Nat) (e : List Char)
    (he : containsFrom blockedMarker e = false)
    (r : α) (rest : List (ChatOutcome α)) :
    run_llm st pp (m :: ms)
        (List.replicate k (.failure e) ++ .success r :: rest) =
      some ((pp r).1,
        { prompt := m
          response := .obj (pp r).2
          input_token_count := inputTokenCount m.query m.context
          output_token_count := ((pp r).1.map (fun a => a.text.length)).sum
          candidates := m.context },
        List.replicate k 60) := by
  have h := run_llm_loop_retries pp m e he r rest k []
  simpa [run_llm] using h

/-- Concrete instantiation: failing twice with a non-blocking error
then succeeding yields exactly two sleeps of 60 units. -/
theorem retry_then_succeed_witness :
    containsFrom blockedMarker "connection reset".toList = false ∧
    run_llm (α := Nat) (ρ := Nat)
        { model := "command-r", context_size := 8000,
          max_output_tokens := 1500, key := "k" }
        (fun n => ([{ text := "ok answer".toList }], n))
        [{ query := "what is up".toList, context := [⟨"a b c".toList, none⟩] }]
        (List.replicate 2 (.failure "connection reset".toList) ++
          .success 42 :: []) =
      some ([{ text := "ok answer".toList }],
        { prompt := { query := "what is up".toList,
                      context := [⟨"a b c".toList, none⟩] }
          response := .obj 42
          input_token_count :=
            inputTokenCount "what is up".toList [⟨"a b c".toList, none⟩]
          output_token_count :=
            (([{ text := "ok answer".toList }] : List Answer).map
              (fun a => a.text.length)).sum
          candidates := [⟨"a b c".toList, none⟩] },
        List.replicate 2 60) :=
  ⟨by decide,
   retry_then_succeed _ _ _ _ 2 _ (by decide) 42 []⟩

/-- C8: constructing the adapter with a model identifier outside the
fixed allow-list raises the unsupported-model `ValueError` (before any
client is created: the error branch yields no adapter state), while an
allow-listed identifier never raises this error. -/
theorem unsupported_model_rejected :
    (∀ (cs mot : Int) (key : Option String) (v : String → Bool),
        Cohere.init "not-a-real-model" cs mot key v =
          .error .unsupportedModel) ∧
    (∀ (m : String), m ∈ supportedModels →
        ∀ (cs mot : Int) (key : Option String) (v : String → Bool),
          Cohere.init m cs mot key v ≠ .error .unsupportedModel) := by
  constructor
  · intro cs mot key v
    unfold Cohere.init
    rw [if_neg (by decide)]
  · intro m hm cs mot key v
    unfold Cohere.init
    rw [if_pos hm]
    cases key with
    | none => simp
    | some k =>
      by_cases hv : v k
      · simp [hv]
      · simp [hv]

/-- Concrete instantiation of the model allow-list check. -/
theorem unsupported_model_rejected_witness :
    Cohere.init "not-a-real-model" 8000 1500 (some "k") (fun _ => true) =
      .error .unsupportedModel ∧
    "command-r" ∈ supportedModels ∧
    Cohere.init "command-r" 8000 1500 (some "k") (fun _ => true) ≠
      .error .unsupportedModel :=
  ⟨unsupported_model_rejected.1 8000 1500 (some "k") (fun _ => true),
   by decide,
   unsupported_model_rejected.2 "command-r" (by decide) 8000 1500
     (some "k") (fun _ => true)⟩

/-- C9: an absent or invalid API credential fails at construction time
with a configuration error, and `run_llm`'s behavior is independent of
the adapter state (in particular of the stored credential): credential
problems can never surface at invocation time instead. -/
theorem credential_fail_fast :
    (∀ (m : String) (cs mot : Int) (v : String → Bool),
        m ∈ supportedModels →
        Cohere.init m cs mot none v = .error .badCredential) ∧
    (∀ (m : String) (cs mot : Int) (k : String) (v : String → Bool),
        m ∈ supportedModels → v k = false →
        Cohere.init m cs mot (some k) v = .error .badCredential) ∧
    (∀ (α ρ : Type) (s₁ s₂ : CohereState) (pp : α → List Answer × ρ)
        (prompt : List Message) (script : List (ChatOutcome α)),
        run_llm s₁ pp prompt script = run_llm s₂ pp prompt script) := by
  refine ⟨?_, ?_, ?_⟩
  · intro m cs mot v hm
    unfold Cohere.init
    rw [if_pos hm]
  · intro m cs mot k v hm hv
    unfold Cohere.init
    rw [if_pos hm]
    simp [hv]
  · intro α ρ s₁ s₂ pp prompt script
    rfl

/-- Concrete instantiation of construction-time credential failure. -/
theorem credential_fail_fast_witness :
    "command-r" ∈ supportedModels ∧
    Cohere.init "command-r" 8000 1500 none (fun _ => true) =
      .error .badCredential ∧
    Cohere.init "command-r" 8000 1500 (some "bad") (fun _ => false) =
      .error .badCredential ∧
    run_llm (α := Nat) (ρ := Nat)
        { model := "command-r", context_size := 8000,
          max_output_tokens := 1500, key := "k1" }
        (fun n => ([], n)) [] [] =
      run_llm
        { model := "command-r", context_size := 8000,
          max_output_tokens := 1500, key := "k2" }
        (fun n => ([], n)) [] [] :=
  ⟨by decide,
   credential_fail_fast.1 "command-r" 8000 1500 (fun _ => true) (by decide),
   credential_fail_fast.2.1 "command-r" 8000 1500 "bad" (fun _ => false)
     (by decide) rfl,
   credential_fail_fast.2.2 Nat Nat _ _ (fun n => ([], n)) [] []⟩

/-- C5: `convert_doc_to_prompt_content` selects the text field by the
priority order `text` > `segment` > `contents` > `passage` (first
present key wins: with both `text` and `passage` it uses `text`), and
a document lacking all four fields yields the `KeyError` (`none`)
rather than a result. -/
theorem field_priority :
    (∀ (fix rn : List Char → List Char) (doc : Doc) (ml : Int)
        (t : List Char), doc.lookup "text" = some t →
        convert_doc_to_prompt_content fix rn doc ml =
          some { snippet := cleanField fix rn ml t
                 title := (doc.lookup "title").map (cleanField fix rn ml) }) ∧
    (∀ (doc : Doc) (t : List Char), doc.lookup "text" = none →
        doc.lookup "segment" = some t → selectContent doc = some t) ∧
    (∀ (doc : Doc) (t : List Char), doc.lookup "text" = none →
        doc.lookup "segment" = none → doc.lookup "contents" = some t →
        selectContent doc = some t) ∧
    (∀ (doc : Doc) (t : List Char), doc.lookup "text" = none →
        doc.lookup "segment" = none → doc.lookup "contents" = none →
        doc.lookup "passage" = some t → selectContent doc = some t) ∧
    (∀ (fix rn : List Char → List Char) (doc : Doc) (ml : Int),
        doc.lookup "text" = none → doc.lookup "segment" = none →
        doc.lookup "contents" = none → doc.lookup "passage" = none →
        convert_doc_to_prompt_content fix rn doc ml = none) := by
  refine ⟨?_, ?_, ?_, ?_, ?_⟩
  · intro fix rn doc ml t ht
    simp [convert_doc_to_prompt_content, selectContent, ht]
  · intro doc t h1 h2
    simp [selectContent, h1, h2]
  · intro doc t h1 h2 h3
    simp [selectContent, h1, h2, h3]
  · intro doc t h1 h2 h3 h4
    simp [selectContent, h1, h2, h3, h4]
  · intro fix rn doc ml h1 h2 h3 h4
    simp [convert_doc_to_prompt_content, selectContent, h1, h2, h3, h4]

/-- Concrete instantiation of field priority: a document with both
`text` and `passage` uses `text`; a document with neither of the four
fields fails. -/
theorem field_priority_witness :
    ([("text", "t val".toList), ("passage", "p val".toList)] : Doc).lookup
        "text" = some "t val".toList ∧
    convert_doc_to_prompt_content (fun s => s) (fun s => s)
        [("text", "t val".toList), ("passage", "p val".toList)] 5 =
      some { snippet := cleanField (fun s => s) (fun s => s) 5 "t val".toList
             title :=
               (([("text", "t val".toList), ("passage", "p val".toList)] :
                 Doc).lookup "title").map
                 (cleanField (fun s => s) (fun s => s) 5) } ∧
    convert_doc_to_prompt_content (fun s => s) (fun s => s)
        [("other", "x".toList)] 5 = none :=
  ⟨by decide,
   field_priority.1 (fun s => s) (fun s => s)
     [("text", "t val".toList), ("passage", "p val".toList)] 5
     "t val".toList (by decide),
   field_priority.2.2.2.2 (fun s => s) (fun s => s)
     [("other", "x".toList)] 5 (by decide) (by decide) (by decide)
     (by decide)⟩

/-- C6: the cleaning pipeline is applied in the order strip → encoding
repair (`fix`) → newline-to-space → keep the first `max_words` tokens
rejoined with single spaces → numeric transform (`rn`), to the snippet
and, when present, the title; and with `max_words = 3` and an input
whose cleaned form has 10 whitespace-separated words, the stage before
the numeric transform has exactly 3 whitespace-separated words. -/
theorem cleaning_pipeline_order (fix rn : List Char → List Char)
    (doc : Doc) (c : List Char) (hc : selectContent doc = some c)
    (h10 : wordCount (replaceNl (fix (pyStrip c))) = 10) :
    convert_doc_to_prompt_content fix rn doc 3 =
      some { snippet :=
               rn (unwords ((pySplit (replaceNl (fix (pyStrip c)))).take 3))
             title := (doc.lookup "title").map (fun t =>
               rn (unwords ((pySplit (replaceNl (fix (pyStrip t)))).take 3))) } ∧
    wordCount (unwords ((pySplit (replaceNl (fix (pyStrip c)))).take 3)) = 3 := by
  constructor
  · have htake : ∀ l : List (List Char), pyTakeInt 3 l = l.take 3 := by
      intro l
      rw [pyTakeInt, if_pos (by decide)]
      rfl
    have hfun : cleanField fix rn 3 = fun t =>
        rn (unwords ((pySplit (replaceNl (fix (pyStrip t)))).take 3)) := by
      funext t
      simp only [cleanField, htake]
    simp only [convert_doc_to_prompt_content, hc, cleanField, htake, hfun]
  · rw [wordCount, pySplit_unwords_take, List.length_take]
    rw [wordCount] at h10
    omega

/-- Concrete instantiation of the 3-of-10 word truncation. -/
theorem cleaning_pipeline_order_witness :
    selectContent [("text", "w1 w2 w3 w4 w5 w6 w7 w8 w9 w10".toList)] =
      some "w1 w2 w3 w4 w5 w6 w7 w8 w9 w10".toList ∧
    wordCount (replaceNl ((fun s => s)
        (pyStrip "w1 w2 w3 w4 w5 w6 w7 w8 w9 w10".toList))) = 10 ∧
    (convert_doc_to_prompt_content (fun s => s) (fun s => s)
        [("text", "w1 w2 w3 w4 w5 w6 w7 w8 w9 w10".toList)] 3 =
      some { snippet :=
               (fun s => s)
                 (unwords ((pySplit (replaceNl ((fun s => s)
                   (pyStrip "w1 w2 w3 w4 w5 w6 w7 w8 w9 w10".toList)))).take 3))
             title :=
               (([("text", "w1 w2 w3 w4 w5 w6 w7 w8 w9 w10".toList)] :
                 Doc).lookup "title").map (fun t =>
                 (fun s => s)
                   (unwords ((pySplit (replaceNl ((fun s => s)
                     (pyStrip t)))).take 3))) } ∧
    wordCount (unwords ((pySplit (replaceNl ((fun s => s)
        (pyStrip "w1 w2 w3 w4 w5 w6 w7 w8 w9 w10".toList)))).take 3)) = 3) :=
  ⟨by decide, by decide,
   cleaning_pipeline_order (fun s => s) (fun s => s)
     [("text", "w1 w2 w3 w4 w5 w6 w7 w8 w9 w10".toList)]
     "w1 w2 w3 w4 w5 w6 w7 w8 w9 w10".toList (by decide) (by decide)⟩

/-- C10: field selection is decided by key presence alone, not value
content: with key `text` present but empty while `passage` is present
and non-empty, the snippet is derived from the empty `text` value
(yielding an empty snippet when the pluggable transforms preserve
emptiness); the embedding is pure, so the input document is never
modified. -/
theorem presence_decides_selection (fix rn : List Char → List Char)
    (p : List Char) (ml : Int) (_hp : p ≠ [])
    (hfix : fix [] = []) (hrn : rn [] = []) :
    selectContent [("text", []), ("passage", p)] = some [] ∧
    convert_doc_to_prompt_content fix rn [("text", []), ("passage", p)] ml =
      some { snippet := [], title := none } := by
  have hclean : cleanField fix rn ml [] = [] := by
    have h1 : pyStrip [] = [] := rfl
    rw [cleanField, h1, hfix]
    have h2 : pyTakeInt ml (pySplit (replaceNl [])) = [] := by
      rw [show replaceNl [] = [] from rfl, show pySplit [] = [] from rfl,
        pyTakeInt]
      split <;> simp
    rw [h2]
    exact hrn
  constructor
  · rfl
  · show convert_doc_to_prompt_content fix rn
      [("text", []), ("passage", p)] ml = _
    rw [convert_doc_to_prompt_content]
    have hsel : selectContent [("text", []), ("passage", p)] = some [] := rfl
    rw [hsel]
    have htitle : (([("text", []), ("passage", p)] : Doc).lookup "title") =
        none := rfl
    rw [htitle]
    show (some { snippet := cleanField fix rn ml []
                 title := Option.map (cleanField fix rn ml) none } :
        Option PromptContent) =
      some { snippet := ([] : List Char), title := none }
    rw [hclean]
    rfl

/-- Concrete instantiation: a present-but-empty `text` beats a
non-empty `passage`. -/
theorem presence_decides_selection_witness :
    ("passage text".toList ≠ ([] : List Char)) ∧
    selectContent [("text", []), ("passage", "passage text".toList)] =
      some [] ∧
    convert_doc_to_prompt_content (fun s => s) (fun s => s)
        [("text", []), ("passage", "passage text".toList)] 7 =
      some { snippet := [], title := none } :=
  ⟨by decide,
   (presence_decides_selection (fun s => s) (fun s => s)
     "passage text".toList 7 (by decide) rfl rfl).1,
   (presence_decides_selection (fun s => s) (fun s => s)
     "passage text".toList 7 (by decide) rfl rfl).2⟩

/-- One loop iteration when a candidate document is malformed: the
`KeyError` propagates out of the loop. -/
lemma create_promptF_succ_none (fix rn : List Char → List Char)
    (cs mot : Int) (req : Request) (topk fuel : Nat) (ml : Int)
    (h : buildContext fix rn ml (req.candidates.take topk) = none) :
    create_promptF fix rn cs mot req topk (fuel + 1) ml =
      some .keyError := by
  rw [create_promptF_succ, h]

/-- One loop iteration when the context builds: break on the budget
check or shrink `maxLength` and continue. -/
lemma create_promptF_succ_some (fix rn : List Char → List Char)
    (cs mot : Int) (req : Request) (topk fuel : Nat) (ml : Int)
    (context : List PromptContent)
    (h : buildContext fix rn ml (req.candidates.take topk) = some context) :
    create_promptF fix rn cs mot req topk (fuel + 1) ml =
      if (-1 : Int) ≤ cs - mot then
        some (.ok [{ query := req.query.text, context := context }] (-1))
      else
        create_promptF fix rn cs mot req topk fuel
          (ml - max 1 ((-1 - cs + mot).fdiv (topk * 4))) := by
  rw [create_promptF_succ, h]

/-- With the configuration `context_size = 201`,
`max_output_tokens = 1500` the break condition `-1 ≤ 201 - 1500` never
holds, so the loop never returns, whatever the iteration budget. -/
lemma create_promptF_diverges_aux :
    ∀ (fuel : Nat) (ml : Int),
      create_promptF (fun s => s) (fun s => s) 201 1500
        { query := { text := ['q'] }, candidates := [] } 1 fuel ml = none := by
  intro fuel
  induction fuel with
  | zero => intro ml; rfl
  | succ f ih =>
    intro ml
    rw [create_promptF_succ_some (fun s => s) (fun s => s) 201 1500
      { query := { text := ['q'] }, candidates := [] } 1 f ml [] rfl]
    rw [if_neg (by decide)]
    exact ih _

/-- C2 counterexample: the claim's quantification is too broad.  At
`topk = 1` and `context_size = 201 > 200` with the default
`max_output_tokens = 1500`, the `create_prompt` loop never returns
(the sentinel `-1` exceeds `context_size - max_output_tokens`), so the
loop does not terminate for every `topk ≥ 1` and
`context_size > 200`. -/
theorem create_prompt_diverges_at_default_budget :
    ¬ ∃ (fuel : Nat) (r : CPResult),
        create_prompt (fun s => s) (fun s => s) 201 1500
          { query := { text := ['q'] }, candidates := [] } 1 fuel = some r := by
  rintro ⟨fuel, r, h⟩
  rw [create_prompt, create_promptF_diverges_aux] at h
  exact Option.noConfusion h

/-- C2 (amended): for every `topk ≥ 1` and `context_size > 200` such
that additionally `max_output_tokens ≤ context_size + 1` (so that the
sentinel `-1` passes the budget check), the loop returns after exactly
one iteration — the result is already reached with any fuel ≥ 1 — and
`max_length` is never shrunk from its initial value
`(context_size - 200) // topk`, at which the returned context is
built. -/
theorem create_prompt_single_iteration (fix rn : List Char → List Char)
    (cs mot : Int) (req : Request) (topk fuel : Nat)
    (_htopk : 1 ≤ topk) (_hcs : 200 < cs) (hmot : mot ≤ cs + 1)
    (hfuel : 1 ≤ fuel) :
    create_prompt fix rn cs mot req topk fuel =
      match firstContext fix rn req topk ((cs - 200).fdiv topk) with
      | none => some .keyError
      | some context =>
        some (.ok [{ query := req.query.text, context := context }] (-1)) := by
  obtain ⟨f, rfl⟩ : ∃ f, fuel = f + 1 := ⟨fuel - 1, by omega⟩
  rw [create_prompt, firstContext]
  cases hctx : buildContext fix rn ((cs - 200).fdiv topk)
      (req.candidates.take topk) with
  | none => rw [create_promptF_succ_none fix rn cs mot req topk f _ hctx]
  | some context =>
    rw [create_promptF_succ_some fix rn cs mot req topk f _ context hctx]
    rw [if_pos (show (-1 : Int) ≤ cs - mot by omega)]

/-- Concrete instantiation of single-iteration termination. -/
theorem create_prompt_single_iteration_witness :
    (1 ≤ 1 ∧ (200 : Int) < 10000 ∧ (1500 : Int) ≤ 10000 + 1 ∧ 1 ≤ 3) ∧
    create_prompt (fun s => s) (fun s => s) 10000 1500
        { query := { text := ['q'] },
          candidates := [⟨[("text", "alpha doc one".toList)]⟩] } 1 3 =
      match firstContext (fun s => s) (fun s => s)
          { query := { text := ['q'] },
            candidates := [⟨[("text", "alpha doc one".toList)]⟩] } 1
          ((10000 - 200 : Int).fdiv 1) with
      | none => some .keyError
      | some context =>
        some (.ok [{ query := ['q'], context := context }] (-1)) :=
  ⟨⟨by decide, by decide, by decide, by decide⟩,
   create_prompt_single_iteration (fun s => s) (fun s => s) 10000 1500
     { query := { text := ['q'] },
       candidates := [⟨[("text", "alpha doc one".toList)]⟩] } 1 3
     (by decide) (by decide) (by decide) (by decide)⟩

/-- Whenever the loop returns a `(messages, n)` pair, the single
message's context has one entry per kept candidate (at most `topk`),
`n = -1`, and the budget check held. -/
lemma create_promptF_ok_invariant (fix rn : List Char → List Char)
    (cs mot : Int) (req : Request) (topk : Nat) :
    ∀ (fuel : Nat) (ml : Int) (msgs : List Message) (n : Int),
      create_promptF fix rn cs mot req topk fuel ml = some (.ok msgs n) →
      (∀ m ∈ msgs, m.context.length ≤ topk) ∧ n = -1 ∧
        (-1 : Int) ≤ cs - mot := by
  intro fuel
  induction fuel with
  | zero => intro ml msgs n h; exact absurd h (by simp [create_promptF])
  | succ f ih =>
    intro ml msgs n h
    cases hctx : buildContext fix rn ml (req.candidates.take topk) with
    | none =>
      rw [create_promptF_succ_none fix rn cs mot req topk f ml hctx] at h
      simp at h
    | some context =>
      rw [create_promptF_succ_some fix rn cs mot req topk f ml context
        hctx] at h
      by_cases hcond : (-1 : Int) ≤ cs - mot
      · rw [if_pos hcond] at h
        simp only [Option.some.injEq, CPResult.ok.injEq] at h
        obtain ⟨hmsgs, hn⟩ := h
        subst hmsgs
        refine ⟨?_, hn.symm ▸ rfl, hcond⟩
        intro m hm
        rw [List.mem_singleton] at hm
        subst hm
        show context.length ≤ topk
        rw [buildContext_length fix rn ml _ _ hctx, List.length_take]
        omega
      · rw [if_neg hcond] at h
        exact ih _ _ _ h

/-- C3: whenever `create_prompt` returns, the payload contains at most
`topk` candidate entries, and the estimated token count at the moment
of return is within the budget:
`n ≤ max_tokens(cs) - num_output_tokens(mot)` and likewise for
`get_num_tokens` of the returned messages. -/
theorem create_prompt_budget_invariant (fix rn : List Char → List Char)
    (cs mot : Int) (req : Request) (topk fuel : Nat)
    (msgs : List Message) (n : Int)
    (h : create_prompt fix rn cs mot req topk fuel = some (.ok msgs n)) :
    (∀ m ∈ msgs, m.context.length ≤ topk) ∧
    n ≤ max_tokens cs - num_output_tokens mot ∧
    get_num_tokens msgs ≤ max_tokens cs - num_output_tokens mot := by
  obtain ⟨h1, h2, h3⟩ :=
    create_promptF_ok_invariant fix rn cs mot req topk fuel _ msgs n h
  subst h2
  exact ⟨h1, by simpa [max_tokens, num_output_tokens] using h3,
    by simpa [get_num_tokens, max_tokens, num_output_tokens] using h3⟩

/-- Concrete instantiation of the budget invariant. -/
theorem create_prompt_budget_invariant_witness :
    create_prompt (fun s => s) (fun s => s) 10000 1500
        { query := { text := ['q'] }, candidates := [] } 2 1 =
      some (.ok [{ query := ['q'], context := [] }] (-1)) ∧
    ((∀ m ∈ ([{ query := ['q'], context := [] }] : List Message),
        m.context.length ≤ 2) ∧
      (-1 : Int) ≤ max_tokens 10000 - num_output_tokens 1500 ∧
      get_num_tokens [{ query := ['q'], context := [] }] ≤
        max_tokens 10000 - num_output_tokens 1500) :=
  ⟨by decide,
   create_prompt_budget_invariant (fun s => s) (fun s => s) 10000 1500
     { query := { text := ['q'] }, candidates := [] } 2 1
     [{ query := ['q'], context := [] }] (-1) (by decide)⟩

/-- C7: the payload contains exactly the normalized first `topk`
candidates in their original rank order — the context is the in-order
normalization of `candidates[:topk]` — and in particular for
candidates `[A, B, C]` with `topk = 2` it is normalized `A` followed
by normalized `B`, with `C` absent. -/
theorem order_preservation :
    (∀ (fix rn : List Char → List Char) (cs mot : Int) (req : Request)
        (topk fuel : Nat) (context : List PromptContent),
        mot ≤ cs + 1 → 1 ≤ fuel →
        buildContext fix rn ((cs - 200).fdiv topk)
            (req.candidates.take topk) = some context →
        create_prompt fix rn cs mot req topk fuel =
          some (.ok [{ query := req.query.text, context := context }] (-1))) ∧
    (∀ (fix rn : List Char → List Char) (cs mot : Int) (q : List Char)
        (A B C : Candidate) (fuel : Nat) (a b : PromptContent),
        mot ≤ cs + 1 → 1 ≤ fuel →
        convert_doc_to_prompt_content fix rn A.doc ((cs - 200).fdiv 2) =
          some a →
        convert_doc_to_prompt_content fix rn B.doc ((cs - 200).fdiv 2) =
          some b →
        create_prompt fix rn cs mot
            { query := { text := q }, candidates := [A, B, C] } 2 fuel =
          some (.ok [{ query := q, context := [a, b] }] (-1))) := by
  have general : ∀ (fix rn : List Char → List Char) (cs mot : Int)
      (req : Request) (topk fuel : Nat) (context : List PromptContent),
      mot ≤ cs + 1 → 1 ≤ fuel →
      buildContext fix rn ((cs - 200).fdiv topk)
          (req.candidates.take topk) = some context →
      create_prompt fix rn cs mot req topk fuel =
        some (.ok [{ query := req.query.text, context := context }] (-1)) := by
    intro fix rn cs mot req topk fuel context hmot hfuel hctx
    obtain ⟨f, rfl⟩ : ∃ f, fuel = f + 1 := ⟨fuel - 1, by omega⟩
    rw [create_prompt,
      create_promptF_succ_some fix rn cs mot req topk f _ context hctx,
      if_pos (show (-1 : Int) ≤ cs - mot by omega)]
  refine ⟨general, ?_⟩
  intro fix rn cs mot q A B C fuel a b hmot hfuel hA hB
  apply general fix rn cs mot _ 2 fuel [a, b] hmot hfuel
  show buildContext fix rn ((cs - 200).fdiv 2) ([A, B, C].take 2) =
    some [a, b]
  rw [show [A, B, C].take 2 = [A, B] from rfl]
  simp [buildContext, hA, hB]

/-- Concrete instantiation of order preservation with three
candidates and `topk = 2`. -/
theorem order_preservation_witness :
    convert_doc_to_prompt_content (fun s => s) (fun s => s)
        (Candidate.doc ⟨[("text", "alpha doc one".toList)]⟩)
        ((10000 - 200 : Int).fdiv 2) =
      some { snippet := "alpha doc one".toList, title := none } ∧
    convert_doc_to_prompt_content (fun s => s) (fun s => s)
        (Candidate.doc ⟨[("text", "beta doc two".toList),
          ("title", "Btitle".toList)]⟩) ((10000 - 200 : Int).fdiv 2) =
      some { snippet := "beta doc two".toList,
             title := some "Btitle".toList } ∧
    create_prompt (fun s => s) (fun s => s) 10000 1500
        { query := { text := "what is up".toList },
          candidates := [⟨[("text", "alpha doc one".toList)]⟩,
            ⟨[("text", "beta doc two".toList),
              ("title", "Btitle".toList)]⟩,
            ⟨[("text", "gamma doc three".toList)]⟩] } 2 1 =
      some (.ok [{ query := "what is up".toList,
                   context := [{ snippet := "alpha doc one".toList,
                                 title := none },
                               { snippet := "beta doc two".toList,
                                 title := some "Btitle".toList }] }]
        (-1)) :=
  ⟨by decide, by decide,
   order_preservation.2 (fun s => s) (fun s => s) 10000 1500
     "what is up".toList ⟨[("text", "alpha doc one".toList)]⟩
     ⟨[("text", "beta doc two".toList), ("title", "Btitle".toList)]⟩
     ⟨[("text", "gamma doc three".toList)]⟩ 1
     { snippet := "alpha doc one".toList, title := none }
     { snippet := "beta doc two".toList, title := some "Btitle".toList }
     (by decide) (by decide) (by decide) (by decide)⟩

end Ragnarok
